import Mathlib

/-!
Verification of the multi-source hardware-acquisition core of DeskAnalyse
(`src/core/hardware_info.py`) against its natural-language specification.

The Python code is shallowly embedded: each probe becomes a total Lean
function over an explicit outcome type (interface absent, process failure,
raw output), the per-category merge loops become folds with early exit over
lists of probe records, and the string processing (header-offset tabular
parsing, substring search, placeholder tables) is reimplemented faithfully
over `String` / `List Char`.
-/

/-- The "unavailable" sentinel used throughout `hardware_info.py`
("Não disponível"). -/
def NA : String := "Não disponível"

/- ## Generic string utilities mirroring the Python operations used -/

/-- Index of the first occurrence of `needle` in a character list, mirroring
Python `str.find` (`none` when absent). -/
def subFind (needle : List Char) : List Char → Option Nat
  | [] => if needle.isEmpty then some 0 else none
  | c :: rest =>
    if needle.isPrefixOf (c :: rest) then some 0
    else (subFind needle rest).map (· + 1)

/-- Python `hay.find(needle)`: first index, or `-1` when absent. -/
def strFind (hay needle : String) : Int :=
  match subFind needle.data hay.data with
  | some n => (n : Int)
  | none => -1

/-- Python `needle in hay` substring test. -/
def strContains (hay needle : String) : Bool :=
  (subFind needle.data hay.data).isSome

/-- Python slice `s[a:b]` for `0 ≤ a ≤ b` (indices past the end are clipped,
as in Python). -/
def strSlice (s : String) (a b : Nat) : String :=
  String.mk ((s.data.drop a).take (b - a))

/-- The whitespace set of Python `str.strip()` (ASCII part; the probes only
meet ASCII whitespace). -/
def pyIsSpace (c : Char) : Bool :=
  c == ' ' || c == '\t' || c == '\n' || c == '\r' ||
    c == Char.ofNat 11 || c == Char.ofNat 12

/-- Python `str.strip()`: drop whitespace from both ends.  (The library
`String.trim` is positionally implemented and does not evaluate inside the
kernel, so the list-based version is used throughout.) -/
def pyStrip (s : String) : String :=
  String.mk (((s.data.dropWhile pyIsSpace).reverse.dropWhile pyIsSpace).reverse)

/-- ASCII lowering of one character, as Python `str.lower()` acts on the
strings in question. -/
def pyCharLower (c : Char) : Char :=
  if 65 ≤ c.toNat ∧ c.toNat ≤ 90 then Char.ofNat (c.toNat + 32) else c

/-- Python `str.lower()`. -/
def pyLower (s : String) : String :=
  String.mk (s.data.map pyCharLower)

/-- Fuelled splitting of a character list on a non-empty separator
(the fuel is always at least the list length plus one, so it never runs
out; it only makes the recursion structural). -/
def splitOnSepFuel (sep : List Char) : Nat → List Char → List (List Char)
  | 0, cs => [cs]
  | _ + 1, [] => [[]]
  | fuel + 1, c :: rest =>
    if sep.isPrefixOf (c :: rest) then
      [] :: splitOnSepFuel sep fuel ((c :: rest).drop sep.length)
    else
      match splitOnSepFuel sep fuel rest with
      | [] => [[c]]
      | g :: gs => (c :: g) :: gs

/-- Python `s.split(sep)` for a non-empty separator. -/
def pySplit (s sep : String) : List String :=
  (splitOnSepFuel sep.data (s.data.length + 1) s.data).map String.mk

/- ## Field Merge Engine (scalar categories)

`get_motherboard_info`, `get_cpu_info`, `get_tpm_info`,
`get_bluetooth_info` and `get_wifi_info` all run the same loop over their
ordered probe list (hardware_info.py lines 91-104, 240-253, 1143-1156,
1307-1320, 1469-1482): for each probe record, every field value that is
non-empty and not the sentinel is written into the accumulator, and the
loop stops early once every field differs from the sentinel.  A scalar
category record is modelled as a function from its field type to `String`. -/

/-- Python truthiness test `value and value != "Não disponível"` applied to a
field value. -/
def validVal (v : String) : Bool := v != "" && v != NA

/-- One field of the merge loop body:
`if value and value != "Não disponível": result[key] = value`. -/
def mergeField (acc new : String) : String :=
  if validVal new then new else acc

/-- Merging one probe record into the accumulator (the inner `for key, value
in method_result.items()` loop). -/
def mergeRec {F : Type} (acc p : F → String) : F → String :=
  fun f => mergeField (acc f) (p f)

/-- Early-exit test `all(value != "Não disponível" for value in
result.values())`; `fields` enumerates the record's keys. -/
def resolvedAll {F : Type} (fields : List F) (r : F → String) : Bool :=
  fields.all fun f => r f != NA

/-- The all-unavailable initial record (`result = {...: "Não disponível"}`). -/
def naRec (F : Type) : F → String := fun _ => NA

/-- The collector loop over ordered probe outputs: merge each record, stop
once all fields are resolved. -/
def collectScalar {F : Type} (fields : List F) (acc : F → String) :
    List (F → String) → (F → String)
  | [] => acc
  | p :: ps =>
    let acc' := mergeRec acc p
    if resolvedAll fields acc' then acc' else collectScalar fields acc' ps

/- ## Motherboard category -/

/-- The motherboard record's keys (`manufacturer`, `model`, `serial_number`). -/
inductive MoboField where
  | manufacturer
  | model
  | serial_number
deriving DecidableEq, Repr

/-- A motherboard record, keyed by `MoboField`. -/
abbrev MoboRec := MoboField → String

/-- The key list of the motherboard record, in declaration order. -/
def moboFields : List MoboField :=
  [MoboField.manufacturer, MoboField.model, MoboField.serial_number]

/-- The all-unavailable motherboard record. -/
def naMobo : MoboRec := naRec MoboField

/-- `get_motherboard_info` (lines 75-106), abstracted over the ordered list
of records its three probes return. -/
def get_motherboard_info (probes : List MoboRec) : MoboRec :=
  collectScalar moboFields naMobo probes

/-- Point update of a record (`result[key] = value`). -/
def setF {F : Type} [DecidableEq F] (r : F → String) (k : F) (v : String) :
    F → String :=
  fun f => if f = k then v else r f

/- ## Tabular Output Parser (WMIC motherboard probe, lines 136-182)

`_get_motherboard_info_wmic` locates each keyword's character offset in the
header line (`-1` when absent), sorts the `(offset, key)` pairs (Python
`sorted` on tuples: by offset, ties by the key string), and slices the data
row between consecutive offsets. -/

/-- Rank of a motherboard key in the lexicographic order of the Python key
strings `"manufacturer" < "model" < "serial_number"`, used for the tie-break
of Python tuple sorting. -/
def moboKeyRank : MoboField → Nat
  | MoboField.manufacturer => 0
  | MoboField.model => 1
  | MoboField.serial_number => 2

/-- Comparison of `(offset, key)` pairs as Python compares the tuples
`(index, key_string)`. -/
def idxLe (a b : Int × MoboField) : Bool :=
  decide (a.1 < b.1 ∨ (a.1 = b.1 ∧ moboKeyRank a.2 ≤ moboKeyRank b.2))

/-- Insertion step of the sort of `(offset, key)` pairs. -/
def insertIdx (x : Int × MoboField) :
    List (Int × MoboField) → List (Int × MoboField)
  | [] => [x]
  | y :: ys => if idxLe x y then x :: y :: ys else y :: insertIdx x ys

/-- Python `sorted` on the three `(offset, key)` pairs. -/
def sortIdx : List (Int × MoboField) → List (Int × MoboField)
  | [] => []
  | x :: xs => insertIdx x (sortIdx xs)

/-- The per-row column-extraction loop (lines 168-178): skip offsets `< 0`;
the value of a column runs from its offset to the next entry's offset when
that is `>= 0`, else to the end of the row; trimmed values that are
non-empty are written into the record. -/
def applyCols (r : MoboRec) (line : List Char) :
    List (Int × MoboField) → MoboRec
  | [] => r
  | (i, k) :: rest =>
    if i < 0 then applyCols r line rest
    else
      let e : Int :=
        match rest with
        | (j, _) :: _ => if 0 ≤ j then j else (line.length : Int)
        | [] => (line.length : Int)
      let v := pyStrip (String.mk ((line.drop i.toNat).take (e - i).toNat))
      let r' := if v != "" then setF r k v else r
      applyCols r' line rest

/-- Parsing the header line and one data row (lines 158-178): keyword
offsets are looked up case-insensitively in the header, and the stripped
data row is sliced at the sorted offsets. -/
def parse_mobo_row (header row : String) : MoboRec :=
  let line := pyStrip row
  let hl := pyLower header
  applyCols naMobo line.data
    (sortIdx [(strFind hl "manufacturer", MoboField.manufacturer),
              (strFind hl "product", MoboField.model),
              (strFind hl "serialnumber", MoboField.serial_number)])

/-- Parsing the whole WMIC output (lines 155-178): strip, split on newlines,
require a data row after the header, then parse header and first data row. -/
def parse_mobo_wmic_output (output : String) : MoboRec :=
  let lines := pySplit (pyStrip output) "\n"
  if lines.length > 1 then
    parse_mobo_row (lines.headD "") ((lines.drop 1).headD "")
  else naMobo

/- ## Source Probe boundary (error conversion, spec section 7)

Each probe is modelled as a total function over an explicit outcome type;
the Python `try/except` blocks that convert every failure into the
all-unavailable record become the non-`ok` branches. -/

/-- The ways `subprocess.check_output` / `Popen.communicate` fail in the
probes: launch failure, `CalledProcessError` (non-zero exit),
`TimeoutExpired`, or output decoding failure.  All are caught by the same
`except` clause. -/
inductive SubprocFailure where
  | launchFailure
  | nonZeroExit
  | timeout
  | decodeFailure
deriving DecidableEq, Repr

/-- `_get_motherboard_info_wmic` (lines 136-182): not on Windows, or any
subprocess failure, yields the all-unavailable record; otherwise the output
is parsed. -/
def mobo_wmic (isWindows : Bool) (run : Except SubprocFailure String) :
    MoboRec :=
  if !isWindows then naMobo
  else
    match run with
    | Except.error _ => naMobo
    | Except.ok out => parse_mobo_wmic_output out

/-- A `Win32_BaseBoard` WMI object; a missing or falsy attribute is
modelled as the empty string (the code guards each with
`hasattr(board, A) and board.A`). -/
structure BoardObj where
  manufacturer : String
  product : String
  serialNumber : String
deriving DecidableEq, Repr

/-- Field assignment for one board (lines 120-126). -/
def moboWmiBoard (r : MoboRec) (b : BoardObj) : MoboRec :=
  let r1 := if b.manufacturer != "" then
    setF r MoboField.manufacturer (pyStrip b.manufacturer) else r
  let r2 := if b.product != "" then
    setF r1 MoboField.model (pyStrip b.product) else r1
  if b.serialNumber != "" then
    setF r2 MoboField.serial_number (pyStrip b.serialNumber) else r2

/-- The board loop (lines 120-130), which stops once a model was found. -/
def moboWmiLoop (r : MoboRec) : List BoardObj → MoboRec
  | [] => r
  | b :: bs =>
    let r' := moboWmiBoard r b
    if r' MoboField.model != NA then r' else moboWmiLoop r' bs

/-- `_get_motherboard_info_wmi` (lines 108-134): without a WMI client or off
Windows the all-unavailable record is returned; a raising query is caught
and also yields it. -/
def mobo_wmi (hasClient isWindows : Bool)
    (query : Except Unit (List BoardObj)) : MoboRec :=
  if !hasClient || !isWindows then naMobo
  else
    match query with
    | Except.error _ => naMobo
    | Except.ok boards => moboWmiLoop naMobo boards

/-- One line of `reg query` output processing (lines 210-218): lines
mentioning the value name and `REG_SZ` are split on `REG_SZ` and the
trimmed remainder is assigned.  The serial number is never set by this
probe. -/
def regLine (r : MoboRec) (l : String) : MoboRec :=
  if strContains l "BaseBoardManufacturer" && strContains l "REG_SZ" then
    let parts := pySplit l "REG_SZ"
    if parts.length > 1 then
      setF r MoboField.manufacturer (pyStrip (parts.getD 1 ""))
    else r
  else if strContains l "BaseBoardProduct" && strContains l "REG_SZ" then
    let parts := pySplit l "REG_SZ"
    if parts.length > 1 then
      setF r MoboField.model (pyStrip (parts.getD 1 ""))
    else r
  else r

/-- Parsing the whole `reg query` output (lines 209-218). -/
def parse_mobo_registry_output (out : String) : MoboRec :=
  (pySplit (pyStrip out) "\n").foldl regLine naMobo

/-- `_get_motherboard_info_registry` (lines 184-222): off Windows or with
`winreg` missing, and on any subprocess failure, the all-unavailable record
is returned. -/
def mobo_registry (isWindows winregPresent : Bool)
    (run : Except SubprocFailure String) : MoboRec :=
  if !isWindows || !winregPresent then naMobo
  else
    match run with
    | Except.error _ => naMobo
    | Except.ok out => parse_mobo_registry_output out

/- ## RAM category (lines 405-539) -/

/-- One exported memory-module record (`size`, `manufacturer`, `location`,
`speed`). -/
structure RamModule where
  size : String
  manufacturer : String
  location : String
  speed : String
deriving DecidableEq, Repr

/-- The RAM category record: scalar `total` and `slots_used` plus the
module list. -/
structure RamRec where
  total : String
  slots_used : String
  modules : List RamModule
deriving DecidableEq, Repr

/-- The initial RAM record (lines 407-411). -/
def naRam : RamRec := { total := NA, slots_used := NA, modules := [] }

/-- Merging one RAM probe record (lines 427-432): scalar fields follow the
common valid-value rule; a non-empty module list replaces the accumulator's
list wholesale. -/
def ramStep (acc p : RamRec) : RamRec :=
  { total := mergeField acc.total p.total
    slots_used := mergeField acc.slots_used p.slots_used
    modules := if p.modules.isEmpty then acc.modules else p.modules }

/-- The RAM early-exit test (line 435): `total` and `slots_used` resolved
and a non-empty module list. -/
def ramDone (r : RamRec) : Bool :=
  r.total != NA && (r.slots_used != NA && !r.modules.isEmpty)

/-- The RAM collector loop over ordered probe outputs. -/
def ramCollect (acc : RamRec) : List RamRec → RamRec
  | [] => acc
  | p :: ps =>
    let acc' := ramStep acc p
    if ramDone acc' then acc' else ramCollect acc' ps

/-- `get_ram_info` (lines 405-440), abstracted over the ordered list of
records its four probes return. -/
def get_ram_info (probes : List RamRec) : RamRec :=
  ramCollect naRam probes

/- ## Manufacturer Heuristic Resolver (lines 486-516) -/

/-- The generic manufacturer placeholders of lines 489 and 515. -/
def genericManufacturers : List String :=
  ["unknown", "not specified", "0000", "to be filled by o.e.m."]

/-- The ordered part-number pattern table (lines 493-512); each branch tests
case-sensitive substring containment in the part number. -/
def lookupByPartNumber (pn : String) : String :=
  if strContains pn "KHX" || strContains pn "HX" then "Kingston"
  else if strContains pn "CMK" || strContains pn "CMW" || strContains pn "CM" then
    "Corsair"
  else if strContains pn "F4" && strContains pn "G" then "G.Skill"
  else if strContains pn "BLS" || strContains pn "CT" then "Crucial"
  else if strContains pn "AX4U" then "ADATA XPG"
  else if strContains pn "M378" then "Samsung"
  else if strContains pn "HMA" || strContains pn "HMP" then "Hynix"
  else if strContains pn "PVS" then "Patriot Viper"
  else if strContains pn "TED4" then "Teamgroup Elite"
  else "Não identificado"

/-- The manufacturer resolution of lines 489-516: a present, non-generic
manufacturer passes through; otherwise the stripped part number, when
non-empty, is matched against the pattern table; anything still empty or
generic becomes "Não identificado". -/
def resolve_ram_manufacturer (manufacturer partNumberField : String) : String :=
  let m1 :=
    if manufacturer = "" ∨ pyLower manufacturer ∈ genericManufacturers then
      let pn := pyStrip partNumberField
      if pn != "" then lookupByPartNumber pn else manufacturer
    else manufacturer
  if m1 = "" ∨ pyLower m1 ∈ genericManufacturers then "Não identificado" else m1

/- ## PowerShell CIM RAM probe (lines 442-539)

The JSON decoding of the PowerShell output is abstracted: a decoded outcome
carries the module objects (with the single-object case already wrapped
into a one-element list, line 474-475), and `none` stands for a
`json.JSONDecodeError`.  The byte-to-GB conversion `round(capacity/2**30, 2)`
is computed exactly in hundredths of a GB (Python rounds the nearest
double half-to-even; the difference is confined to exact .005 boundaries
and does not affect any claim, which only use positivity and the shape of
the formatted string). -/

/-- One decoded `Win32_PhysicalMemory` JSON object.  A missing or null
string member is the empty string (the code uses `module.get(k, "")`), a
missing numeric member is 0. -/
structure RawModule where
  BankLabel : String
  DeviceLocator : String
  Capacity : Int
  Manufacturer : String
  PartNumber : String
  SerialNumber : String
  Speed : Int
deriving DecidableEq, Repr

/-- `round(capacity / 2**30, 2)` in hundredths of a GB. -/
def centiGB (bytes : Int) : Int := (bytes * 200 + 1073741824) / 2147483648

/-- Python `f-string` formatting `f"{x:.2f} GB"` of a hundredths value. -/
def fmt2GB (c : Int) : String :=
  toString (c / 100) ++ "." ++
    (if c % 100 < 10 then "0" ++ toString (c % 100) else toString (c % 100)) ++
    " GB"

/-- Python `f"{x} GB"` where `x` is a float holding a hundredths value
(`4.0` prints as "4.0", `4.25` as "4.25"). -/
def fmtFloatGB (c : Int) : String :=
  toString (c / 100) ++ "." ++
    (if c % 100 = 0 then "0"
     else if c % 100 % 10 = 0 then toString (c % 100 / 10)
     else if c % 100 < 10 then "0" ++ toString (c % 100)
     else toString (c % 100)) ++
    " GB"

/-- Building one exported module record (lines 480-525): formatted size,
resolved manufacturer (the `Manufacturer` member is stripped at line 486),
`BankLabel or DeviceLocator` (both stripped) as location, and the formatted
speed. -/
def mkCimModule (m : RawModule) : RamModule :=
  { size := fmtFloatGB (centiGB m.Capacity)
    manufacturer := resolve_ram_manufacturer (pyStrip m.Manufacturer) m.PartNumber
    location := if pyStrip m.BankLabel != "" then pyStrip m.BankLabel
                else pyStrip m.DeviceLocator
    speed := toString m.Speed ++ " MHz" }

/-- Assembling the probe's record from the decoded module list
(lines 477-533): the total is set only when positive, `slots_used` and the
module list only when modules exist. -/
def buildCimResult (mods : List RawModule) : RamRec :=
  let modules := mods.map mkCimModule
  let totalCenti := mods.foldl (fun acc m => acc + centiGB m.Capacity) 0
  { total := if totalCenti > 0 then fmt2GB totalCenti else NA
    slots_used := if modules.isEmpty then NA else toString modules.length
    modules := modules }

/-- Outcome of the PowerShell invocation: a raised launch/timeout error, or
an exit with code, raw stdout and the (attempted) JSON decoding of stdout. -/
inductive CimOutcome where
  | procFailure (e : SubprocFailure)
  | finished (exitCode : Int) (stdout : String)
      (decoded : Option (List RawModule))

/-- `_get_ram_info_powershell_cim` (lines 442-539): off Windows, on any
process failure, on non-zero exit, on blank stdout, and on a JSON decode
failure the all-unavailable record (with an empty module list) is
returned. -/
def ram_cim (isWindows : Bool) (run : CimOutcome) : RamRec :=
  if !isWindows then naRam
  else
    match run with
    | CimOutcome.procFailure _ => naRam
    | CimOutcome.finished exitCode stdout decoded =>
      if exitCode = 0 ∧ pyStrip stdout != "" then
        match decoded with
        | some mods => buildCimResult mods
        | none => naRam
      else naRam

/- ## Disk and GPU list categories (lines 715-1009) -/

/-- One exported disk record. -/
structure DiskRec where
  model : String
  type : String
  size : String
  free_space : String
deriving DecidableEq, Repr

/-- Disk type classification of the WMI probe (lines 787-800): when the
`MediaType` attribute is present and non-empty it alone is inspected (SSD
markers first, then NVMe); only when it is absent or empty is the model
string consulted, there with NVMe taking precedence over SSD. -/
def classify_wmi (mediaType model : String) : String :=
  if mediaType != "" then
    if strContains (pyLower mediaType) "ssd" ||
        strContains (pyLower mediaType) "solid state" then "SSD"
    else if strContains (pyLower mediaType) "nvme" then "NVMe"
    else "HDD"
  else if model != "" &&
      (strContains (pyLower model) "ssd" || strContains (pyLower model) "nvme") then
    if strContains (pyLower model) "nvme" then "NVMe" else "SSD"
  else "HDD"

/-- Disk type classification of the WMIC probe (lines 876-884): an SSD
marker in the media type or model sets SSD, then an NVMe marker in either
overrides to NVMe. -/
def classify_wmic (mediaTypeCell modelCell : String) : String :=
  let t1 := if strContains (pyLower mediaTypeCell) "ssd" ||
      strContains (pyLower mediaTypeCell) "solid state" ||
      strContains (pyLower modelCell) "ssd" then "SSD" else "HDD"
  if strContains (pyLower mediaTypeCell) "nvme" ||
      strContains (pyLower modelCell) "nvme" then "NVMe"
  else t1

/-- Restatement of the WMIC classification in the claim's shape (NVMe marker
anywhere first, then SSD markers, else HDD); compared with `classify_wmic`
in the amended claim C4. -/
def classify_wmic_spec (mediaTypeCell modelCell : String) : String :=
  if strContains (pyLower mediaTypeCell) "nvme" ||
      strContains (pyLower modelCell) "nvme" then "NVMe"
  else if strContains (pyLower mediaTypeCell) "ssd" ||
      strContains (pyLower mediaTypeCell) "solid state" ||
      strContains (pyLower modelCell) "ssd" then "SSD"
  else "HDD"

/-- The amended description of the WMI classification: a present, non-empty
media type alone decides (SSD markers before NVMe); the model is consulted
only otherwise, with NVMe taking precedence there; compared with
`classify_wmi` in the amended claim C4. -/
def classify_wmi_spec (mediaType model : String) : String :=
  if mediaType != "" then
    if strContains (pyLower mediaType) "ssd" ||
        strContains (pyLower mediaType) "solid state" then "SSD"
    else if strContains (pyLower mediaType) "nvme" then "NVMe"
    else "HDD"
  else
    if strContains (pyLower model) "nvme" then "NVMe"
    else if strContains (pyLower model) "ssd" then "SSD"
    else "HDD"

/-- Merging one probe-reported disk into the accumulated list
(lines 731-744): the first existing entry with the identical model string
gains `free_space` and `type` where it held the sentinel and the new entry
does not; without a model match the disk is appended. -/
def mergeOneDisk : List DiskRec → DiskRec → List DiskRec
  | [], d => [d]
  | e :: es, d =>
    if e.model = d.model then
      { e with
        free_space := if d.free_space != NA && e.free_space == NA then
            d.free_space else e.free_space
        type := if d.type != NA && e.type == NA then d.type else e.type } :: es
    else e :: mergeOneDisk es d

/-- `get_disk_info` (lines 715-751), abstracted over the ordered list of
entity lists its three probes return; every probe's entities are folded
into the accumulated list. -/
def get_disk_info (probeResults : List (List DiskRec)) : List DiskRec :=
  probeResults.foldl (fun acc r => r.foldl mergeOneDisk acc) []

/-- One exported GPU record (only the model, lines 1024-1026). -/
structure GpuRec where
  model : String
deriving DecidableEq, Repr

/-- Adding one probe-reported GPU (lines 997-1004): appended unless an entry
with the identical model string already exists. -/
def addGpu (acc : List GpuRec) (g : GpuRec) : List GpuRec :=
  if acc.any fun e => e.model == g.model then acc else acc ++ [g]

/-- `get_gpu_info` (lines 980-1009), abstracted over the ordered list of
entity lists its three probes return. -/
def get_gpu_info (probeResults : List (List GpuRec)) : List GpuRec :=
  probeResults.foldl (fun acc r => r.foldl addGpu acc) []

/-- The identity-key normalization named by the specification (trimming and
case normalization); the code itself compares model strings for exact
equality, which claim C7's counterexample exhibits. -/
def normalizeKey (s : String) : String := pyLower (pyStrip s)

/- ## WMIC disk probe free-space stage (lines 896-938) -/

/-- One physical-disk record as stage 1 of `_get_disk_info_wmic` builds it
(lines 887-892): the free space is always the sentinel at this point. -/
def wmicStage1Disk (model ty size : String) : DiskRec :=
  { model := model, type := ty, size := size, free_space := NA }

/-- Python `int(s)` on a decimal string: optional surrounding whitespace and
sign, at least one digit (digit-group underscores are not modelled; no
input in question uses them). -/
def parsePyInt (s : String) : Option Int :=
  let t := (pyStrip s).data
  let core := if t.headD ' ' = '-' ∨ t.headD ' ' = '+' then t.drop 1 else t
  if core ≠ [] ∧ core.all Char.isDigit then
    let n : Nat := core.foldl (fun acc c => acc * 10 + (c.toNat - 48)) 0
    some (if t.headD ' ' = '-' then -(n : Int) else (n : Int))
  else none

/-- The free-space summation loop (lines 916-932): each logical-disk row's
`freespace` cell is converted with `int` and `round(x/2**30, 2)`; rows that
fail to parse are skipped; the per-row GB values are summed. -/
def wmicFreeTotal (freespaceCells : List String) : Int :=
  (freespaceCells.filterMap parsePyInt).foldl (fun acc b => acc + centiGB b) 0

/-- The assignment of lines 934-936: when the stage-1 list is non-empty and
the summed free space is positive, only the FIRST disk's `free_space` is
overwritten with the formatted total. -/
def assignWmicFreeSpace (disks : List DiskRec) (totalCenti : Int) :
    List DiskRec :=
  match disks with
  | [] => []
  | d :: ds =>
    if totalCenti > 0 then { d with free_space := fmt2GB totalCenti } :: ds
    else d :: ds

/- ## Helper lemmas on the merge loops -/

/-- Unfolding the scalar collector on a two-probe list. -/
lemma collectScalar_two {F : Type} (fields : List F) (p1 p2 : F → String) :
    collectScalar fields (naRec F) [p1, p2] =
      if resolvedAll fields (mergeRec (naRec F) p1) then mergeRec (naRec F) p1
      else mergeRec (mergeRec (naRec F) p1) p2 := by
  simp only [collectScalar]
  split
  · rfl
  · split
    · rfl
    · rfl

/-- A field still at the sentinel falsifies the early-exit test. -/
lemma resolvedAll_eq_false {F : Type} {fields : List F} {r : F → String}
    {f : F} (hf : f ∈ fields) (h : r f = NA) :
    resolvedAll fields r = false := by
  cases hres : resolvedAll fields r
  · rfl
  · exfalso
    simp only [resolvedAll] at hres
    have := List.all_eq_true.mp hres f hf
    rw [h] at this
    simp at this

/-- Unfolding the RAM collector on a two-probe list. -/
lemma ramCollect_two (p1 p2 : RamRec) :
    get_ram_info [p1, p2] =
      if ramDone (ramStep naRam p1) then ramStep naRam p1
      else ramStep (ramStep naRam p1) p2 := by
  simp only [get_ram_info, ramCollect]
  split
  · rfl
  · split
    · rfl
    · rfl

/- ## Claim C1 -/

/-- C1: the claim states that when two probes both return a valid
(non-empty, non-sentinel) value for a field, the merged record holds the
FIRST probe's value.  This is false: the merge loop overwrites a field
whenever the new value is valid (lines 96-98), so with both manufacturer
values valid and the first probe leaving other fields unresolved, the
merged manufacturer is the second probe's value. -/
theorem C1_counterexample :
    validVal ((fun f => match f with
        | MoboField.manufacturer => "ASUSTeK"
        | _ => "") MoboField.manufacturer) = true ∧
    validVal ((fun f => match f with
        | MoboField.manufacturer => "Micro-Star"
        | MoboField.model => "B450 TOMAHAWK"
        | MoboField.serial_number => "1234") MoboField.manufacturer) = true ∧
    get_motherboard_info
        [fun f => match f with
          | MoboField.manufacturer => "ASUSTeK"
          | _ => "",
         fun f => match f with
          | MoboField.manufacturer => "Micro-Star"
          | MoboField.model => "B450 TOMAHAWK"
          | MoboField.serial_number => "1234"] MoboField.manufacturer
      = "Micro-Star" ∧
    ("Micro-Star" : String) ≠ "ASUSTeK" := by decide

/-- C1 (amended): when two probes both return a valid value for a field,
the merged record holds the LAST consumed probe's value — a later probe's
valid value overrides an already-resolved field whenever that probe is
consumed; the first probe's value stands only when the early exit stopped
probing first (every field resolved after the first probe). -/
theorem C1_amended {F : Type} (fields : List F) (p1 p2 : F → String) (f : F)
    (h2 : validVal (p2 f) = true) :
    (resolvedAll fields (mergeRec (naRec F) p1) = false →
      collectScalar fields (naRec F) [p1, p2] f = p2 f) ∧
    (resolvedAll fields (mergeRec (naRec F) p1) = true →
      collectScalar fields (naRec F) [p1, p2] f = mergeField NA (p1 f)) := by
  rw [collectScalar_two]
  constructor
  · intro hres
    rw [if_neg (by simp [hres])]
    simp [mergeRec, mergeField, h2]
  · intro hres
    rw [if_pos (by simp [hres])]
    simp [mergeRec, naRec]

/-- C1 (amended), witness: a second valid manufacturer value overrides the
first when the first probe left other fields unresolved. -/
theorem C1_amended_witness :
    get_motherboard_info
        [fun f => match f with
          | MoboField.manufacturer => "Gigabyte"
          | _ => "",
         fun _ => "AORUS"] MoboField.manufacturer = "AORUS" :=
  (C1_amended moboFields _ _ MoboField.manufacturer (by decide)).1 (by decide)

/- ## Claim C3 -/

/-- C3: merge monotonicity in both directions, for any scalar category
schema `F`, any field `f` of it, and any two probe records: a valid value
of the earlier probe survives an empty/unavailable later value, and an
empty/unavailable earlier value is replaced by a valid later value. -/
theorem C3_merge_monotonic {F : Type} (fields : List F) (p1 p2 : F → String)
    (f : F) (hf : f ∈ fields) :
    (validVal (p1 f) = true → validVal (p2 f) = false →
      collectScalar fields (naRec F) [p1, p2] f = p1 f) ∧
    (validVal (p1 f) = false → validVal (p2 f) = true →
      collectScalar fields (naRec F) [p1, p2] f = p2 f) := by
  rw [collectScalar_two]
  constructor
  · intro h1 h2
    split
    · simp [mergeRec, mergeField, naRec, h1]
    · simp [mergeRec, mergeField, naRec, h1, h2]
  · intro h1 h2
    have hna : mergeRec (naRec F) p1 f = NA := by
      simp [mergeRec, mergeField, naRec, h1]
    rw [if_neg (by simp [resolvedAll_eq_false hf hna])]
    simp [mergeRec, mergeField, h2]

/-- C3, witness: both directions at concrete motherboard probes. -/
theorem C3_merge_monotonic_witness :
    collectScalar moboFields (naRec MoboField)
        [fun _ => "ASUSTeK", fun _ => ""] MoboField.manufacturer
      = "ASUSTeK" ∧
    collectScalar moboFields (naRec MoboField)
        [fun _ => "", fun _ => "PRIME B450"] MoboField.model
      = "PRIME B450" :=
  ⟨(C3_merge_monotonic moboFields _ _ MoboField.manufacturer (by decide)).1
      (by decide) (by decide),
   (C3_merge_monotonic moboFields _ _ MoboField.model (by decide)).2
      (by decide) (by decide)⟩

/- ## Claim C2 -/

/-- C2: the claim states that the final module list is that of the FIRST
probe returning a non-empty module list.  This is false: a consumed later
probe's non-empty module list replaces the accumulated one wholesale
(lines 428-430); here the first probe has modules but no total, so the
second probe is consumed and its list wins. -/
theorem C2_counterexample :
    (get_ram_info
        [{ total := NA, slots_used := "1",
           modules := [{ size := "4.0 GB", manufacturer := "Samsung",
                         location := "BANK 0", speed := "2400 MHz" }] },
         { total := "8.00 GB", slots_used := "1",
           modules := [{ size := "8.0 GB", manufacturer := "Kingston",
                         location := "BANK 0", speed := "3200 MHz" }] },
         naRam, naRam]).modules
      = [{ size := "8.0 GB", manufacturer := "Kingston", location := "BANK 0",
           speed := "3200 MHz" }] ∧
    ([{ size := "4.0 GB", manufacturer := "Samsung", location := "BANK 0",
        speed := "2400 MHz" }] : List RamModule) ≠ [] ∧
    ([{ size := "8.0 GB", manufacturer := "Kingston", location := "BANK 0",
        speed := "3200 MHz" }] : List RamModule)
      ≠ [{ size := "4.0 GB", manufacturer := "Samsung", location := "BANK 0",
           speed := "2400 MHz" }] := by decide

/-- C2 (amended): the final module list is that of the LAST consumed probe
with a non-empty module list; a later consumed probe's non-empty list
replaces an already-populated list wholesale, and the first probe's list is
final only when the early exit (total and slots resolved, modules present)
stopped consumption after it. -/
theorem C2_amended (p1 p2 : RamRec) (h2 : p2.modules ≠ []) :
    (ramDone (ramStep naRam p1) = false →
      (get_ram_info [p1, p2]).modules = p2.modules) ∧
    (ramDone (ramStep naRam p1) = true →
      (get_ram_info [p1, p2]).modules = p1.modules) := by
  rw [ramCollect_two]
  constructor
  · intro hres
    rw [if_neg (by simp [hres])]
    have h2e : p2.modules.isEmpty = false := by
      cases hl : p2.modules.isEmpty
      · rfl
      · exact absurd (List.isEmpty_iff.mp hl) h2
    simp [ramStep, h2e]
  · intro hres
    rw [if_pos (by simp [hres])]
    by_cases hp1 : p1.modules.isEmpty
    · exfalso
      simp [ramDone, ramStep, hp1, naRam] at hres
    · simp only [Bool.not_eq_true] at hp1
      simp [ramStep, hp1]

/-- C2 (amended), witness. -/
theorem C2_amended_witness :
    (get_ram_info
        [{ total := NA, slots_used := "2",
           modules := [{ size := "4.0 GB", manufacturer := "Crucial",
                         location := "DIMM 1", speed := "2666 MHz" }] },
         { total := "16.00 GB", slots_used := "2",
           modules := [{ size := "16.0 GB", manufacturer := "Corsair",
                         location := "DIMM 2", speed := "3600 MHz" }] }]).modules
      = [{ size := "16.0 GB", manufacturer := "Corsair", location := "DIMM 2",
           speed := "3600 MHz" }] :=
  (C2_amended _ _ (by decide)).1 (by decide)

/- ## Claim C4 -/

/-- C4: the claim states that, for every disk probe, an NVMe marker in the
model string yields NVMe even with a generic media type.  This is false for
the WMI probe (lines 787-800): a present, non-empty media type is decided
alone, so a generic "Fixed hard disk media" with an NVMe model classifies
as HDD. -/
theorem C4_counterexample :
    classify_wmi "Fixed hard disk media" "WDC PC SN730 NVMe SSD" = "HDD" ∧
    strContains (pyLower "WDC PC SN730 NVMe SSD") "nvme" = true ∧
    ("HDD" : String) ≠ "NVMe" := by decide

/-- C4 (amended): the WMIC probe classifies as the claim states (NVMe
marker in media type or model first, then SSD markers in the media type or
model, else HDD), while the WMI probe consults the model only when the
media type is absent or empty; a present media type alone decides, with
its SSD marker checked before its NVMe marker. -/
theorem C4_amended (mediaType model : String) :
    classify_wmic mediaType model = classify_wmic_spec mediaType model ∧
    classify_wmi mediaType model = classify_wmi_spec mediaType model := by
  constructor
  · simp only [classify_wmic, classify_wmic_spec]
  · simp only [classify_wmi, classify_wmi_spec]
    cases hmt : (mediaType != "") with
    | true => simp [hmt]
    | false =>
      have hmt' : mediaType = "" := by simpa using hmt
      subst hmt'
      cases ha : (model != "") with
      | false =>
        have hm : model = "" := by simpa using ha
        subst hm
        decide
      | true =>
        cases hnv : strContains (pyLower model) "nvme" with
        | true => simp [ha, hnv]
        | false =>
          cases hsd : strContains (pyLower model) "ssd" with
          | true => simp [ha, hnv, hsd]
          | false => simp [ha, hnv, hsd]

/- ## Claim C5 -/

/-- C5: every modelled probe converts every failure of its underlying OS
interface — interface/library absence, process launch failure, non-zero
exit, timeout (the `SubprocFailure` cases), blank or malformed output, and
JSON decode failure — into the all-unavailable record (with an empty module
list for RAM); the probes are total functions, so no exception can reach
the collectors. -/
theorem C5_probe_failure_conversion :
    (∀ run : Except SubprocFailure String, mobo_wmic false run = naMobo) ∧
    (∀ e : SubprocFailure, mobo_wmic true (Except.error e) = naMobo) ∧
    mobo_wmic true (Except.ok "No Instance(s) Available.") = naMobo ∧
    (∀ (w : Bool) (q : Except Unit (List BoardObj)),
      mobo_wmi false w q = naMobo) ∧
    (∀ (c : Bool) (q : Except Unit (List BoardObj)),
      mobo_wmi c false q = naMobo) ∧
    mobo_wmi true true (Except.error ()) = naMobo ∧
    (∀ (wr : Bool) (run : Except SubprocFailure String),
      mobo_registry false wr run = naMobo) ∧
    (∀ (iw : Bool) (run : Except SubprocFailure String),
      mobo_registry iw false run = naMobo) ∧
    (∀ e : SubprocFailure, mobo_registry true true (Except.error e) = naMobo) ∧
    mobo_registry true true
        (Except.ok "ERROR: unable to find the specified registry key") = naMobo ∧
    (∀ run : CimOutcome, ram_cim false run = naRam) ∧
    (∀ e : SubprocFailure, ram_cim true (CimOutcome.procFailure e) = naRam) ∧
    (∀ (s : String) (d : Option (List RawModule)),
      ram_cim true (CimOutcome.finished 1 s d) = naRam) ∧
    (∀ d : Option (List RawModule),
      ram_cim true (CimOutcome.finished 0 "" d) = naRam) ∧
    (∀ s : String, ram_cim true (CimOutcome.finished 0 s none) = naRam) := by
  refine ⟨fun _ => rfl, fun _ => rfl, rfl, fun _ _ => rfl, ?_, rfl,
    fun _ _ => rfl, ?_, fun _ => rfl, rfl, fun _ => rfl, fun _ => rfl,
    fun _ _ => rfl, fun _ => rfl, ?_⟩
  · intro c q
    cases c <;> rfl
  · intro iw run
    cases iw <;> rfl
  · intro s
    show (if (0 : Int) = 0 ∧ pyStrip s != "" then naRam else naRam) = naRam
    exact ite_self naRam

/- ## Claim C8 -/

/-- The pattern table never yields an empty or generic name. -/
lemma lookupByPartNumber_valid (pn : String) :
    lookupByPartNumber pn ≠ "" ∧
    pyLower (lookupByPartNumber pn) ∉ genericManufacturers := by
  unfold lookupByPartNumber
  repeat' split
  all_goals decide

/-- C8: a present, non-generic manufacturer is returned unchanged;
otherwise a non-empty stripped part number is resolved through the ordered
pattern table (whose final branch is "Não identificado"); in particular
"KHX2666C16" yields "Kingston" and "XYZ123" with an empty manufacturer
yields "Não identificado". -/
theorem C8_manufacturer_heuristic :
    (∀ manufacturer pn : String, manufacturer ≠ "" →
        pyLower manufacturer ∉ genericManufacturers →
        resolve_ram_manufacturer manufacturer pn = manufacturer) ∧
    (∀ manufacturer pn : String,
        (manufacturer = "" ∨ pyLower manufacturer ∈ genericManufacturers) →
        pyStrip pn ≠ "" →
        resolve_ram_manufacturer manufacturer pn
          = lookupByPartNumber (pyStrip pn)) ∧
    resolve_ram_manufacturer "" "KHX2666C16" = "Kingston" ∧
    resolve_ram_manufacturer "" "XYZ123" = "Não identificado" := by
  refine ⟨?_, ?_, by decide, by decide⟩
  · intro m pn hm hgen
    have hcond : ¬(m = "" ∨ pyLower m ∈ genericManufacturers) :=
      not_or.mpr ⟨hm, hgen⟩
    simp only [resolve_ram_manufacturer, if_neg hcond]
  · intro m pn hgen hpn
    have hpn' : (pyStrip pn != "") = true := by simp [hpn]
    simp only [resolve_ram_manufacturer, if_pos hgen, if_pos hpn']
    rw [if_neg (not_or.mpr ⟨(lookupByPartNumber_valid (pyStrip pn)).1,
      (lookupByPartNumber_valid (pyStrip pn)).2⟩)]

/-- C8, witness: both cases of the dispatch at concrete inputs. -/
theorem C8_manufacturer_heuristic_witness :
    resolve_ram_manufacturer "SK Hynix" "HMA851U6CJR6N" = "SK Hynix" ∧
    resolve_ram_manufacturer "unknown" "KHX2666C16" = "Kingston" :=
  ⟨C8_manufacturer_heuristic.1 "SK Hynix" "HMA851U6CJR6N" (by decide)
      (by decide),
   C8_manufacturer_heuristic.2.1 "unknown" "KHX2666C16" (Or.inr (by decide))
      (by decide)⟩

/- ## Claim C6 -/

/-- C6: the claim states that no exported field ever holds the empty
string.  This is false: `bank_label = BankLabel.strip() or
DeviceLocator.strip()` (line 519) yields the empty string when both members
are blank, and that value is exported unchanged as the module's
`location`. -/
theorem C6_counterexample :
    ((get_ram_info
        [ram_cim true (CimOutcome.finished 0 "serialized module list"
            (some [{ BankLabel := "", DeviceLocator := "",
                     Capacity := 4294967296, Manufacturer := "Samsung",
                     PartNumber := "M378A1K43CB2", SerialNumber := "0000",
                     Speed := 2400 }])),
         naRam, naRam, naRam]).modules.map RamModule.location) = [""] ∧
    ("" : String) ≠ NA := by decide

/-- A non-empty accumulator field stays non-empty under the merge rule. -/
lemma mergeField_ne_empty {acc new : String} (h : acc ≠ "") :
    mergeField acc new ≠ "" := by
  unfold mergeField
  split
  · rename_i hv
    unfold validVal at hv
    intro hcontra
    subst hcontra
    simp at hv
  · exact h

/-- The scalar collector never produces the empty string from a non-empty
start. -/
lemma collectScalar_ne_empty {F : Type} (fields : List F) (acc : F → String)
    (ps : List (F → String)) (f : F) (h : acc f ≠ "") :
    collectScalar fields acc ps f ≠ "" := by
  induction ps generalizing acc with
  | nil => exact h
  | cons p ps ih =>
    simp only [collectScalar]
    split
    · exact mergeField_ne_empty h
    · exact ih _ (mergeField_ne_empty h)

/-- The RAM collector's scalar fields never become empty strings. -/
lemma ramCollect_scalars_ne_empty (acc : RamRec) (ps : List RamRec)
    (ht : acc.total ≠ "") (hs : acc.slots_used ≠ "") :
    (ramCollect acc ps).total ≠ "" ∧ (ramCollect acc ps).slots_used ≠ "" := by
  induction ps generalizing acc with
  | nil => exact ⟨ht, hs⟩
  | cons p ps ih =>
    simp only [ramCollect]
    split
    · exact ⟨mergeField_ne_empty ht, mergeField_ne_empty hs⟩
    · exact ih _ (mergeField_ne_empty ht) (mergeField_ne_empty hs)

/-- Appending a non-empty string yields a non-empty string. -/
lemma append_ne_empty (s t : String) (ht : t ≠ "") : s ++ t ≠ "" := by
  cases s with
  | mk a =>
    cases t with
    | mk b =>
      intro h
      apply ht
      have h' := congrArg String.data h
      simp only [String.data_append] at h'
      have hb : b = [] := (List.append_eq_nil.mp h').2
      simp [hb]

/-- The final placeholder check never yields the empty string. -/
lemma ramManufacturerFinal_ne_empty (m1 : String) :
    (if m1 = "" ∨ pyLower m1 ∈ genericManufacturers then "Não identificado"
     else m1) ≠ "" := by
  split
  · decide
  · rename_i h
    exact fun hc => h (Or.inl hc)

/-- The manufacturer resolution never yields the empty string. -/
lemma resolve_ram_manufacturer_ne_empty (m pn : String) :
    resolve_ram_manufacturer m pn ≠ "" := by
  simp only [resolve_ram_manufacturer]
  exact ramManufacturerFinal_ne_empty _

/-- C6 (amended): every scalar category field, and the RAM record's `total`
and `slots_used`, never hold the empty string, and the module records'
`size`, `manufacturer` and `speed` fields never hold it either; the module
`location` field is the stated exception exhibited by the
counterexample. -/
theorem C6_amended {F : Type} :
    (∀ (fields : List F) (ps : List (F → String)) (f : F),
        collectScalar fields (naRec F) ps f ≠ "") ∧
    (∀ ps : List RamRec,
        (get_ram_info ps).total ≠ "" ∧ (get_ram_info ps).slots_used ≠ "") ∧
    (∀ m : RawModule,
        (mkCimModule m).size ≠ "" ∧ (mkCimModule m).manufacturer ≠ "" ∧
        (mkCimModule m).speed ≠ "") := by
  refine ⟨?_, ?_, ?_⟩
  · intro fields ps f
    have hna : (NA : String) ≠ "" := by decide
    exact collectScalar_ne_empty fields _ ps f hna
  · intro ps
    exact ramCollect_scalars_ne_empty naRam ps (by decide) (by decide)
  · intro m
    exact ⟨append_ne_empty _ _ (by decide),
      resolve_ram_manufacturer_ne_empty _ _,
      append_ne_empty _ _ (by decide)⟩

/- ## Claim C7 -/

/-- C7: the claim states that list entities merge iff their identity keys
match after trimming and case normalization.  This is false: the merge
compares model strings with plain equality (line 735), so two disks whose
models differ only in letter case stay separate entries. -/
theorem C7_counterexample :
    get_disk_info
        [[{ model := "Samsung 970 EVO", type := "SSD", size := "465.76 GB",
            free_space := NA }],
         [{ model := "SAMSUNG 970 EVO", type := NA, size := "465.76 GB",
            free_space := "100.00 GB" }]]
      = [{ model := "Samsung 970 EVO", type := "SSD", size := "465.76 GB",
           free_space := NA },
         { model := "SAMSUNG 970 EVO", type := NA, size := "465.76 GB",
           free_space := "100.00 GB" }] ∧
    normalizeKey "Samsung 970 EVO" = normalizeKey "SAMSUNG 970 EVO" ∧
    ("Samsung 970 EVO" : String) ≠ "SAMSUNG 970 EVO" := by decide

/-- C7 (amended): two list entities merge iff their model strings are
exactly equal (the probes trim the values when parsing, but matching
applies no case or whitespace normalization); on a disk match the existing
entry gains the `free_space` it lacked, an unmatched entity is appended,
and GPU matches deduplicate. -/
theorem C7_amended (d1 d2 : DiskRec) (g1 g2 : GpuRec) :
    (d1.model = d2.model → d1.free_space = NA → d2.free_space ≠ NA →
        d2.type = NA →
        get_disk_info [[d1], [d2]]
          = [{ d1 with free_space := d2.free_space }]) ∧
    (d1.model ≠ d2.model → get_disk_info [[d1], [d2]] = [d1, d2]) ∧
    (g1.model = g2.model → get_gpu_info [[g1], [g2]] = [g1]) ∧
    (g1.model ≠ g2.model → get_gpu_info [[g1], [g2]] = [g1, g2]) := by
  refine ⟨?_, ?_, ?_, ?_⟩
  · intro h1 h2 h3 h4
    simp [get_disk_info, mergeOneDisk, h1, h2, h3, h4]
  · intro h1
    simp [get_disk_info, mergeOneDisk, h1]
  · intro h1
    simp [get_gpu_info, addGpu, h1]
  · intro h1
    simp [get_gpu_info, addGpu, h1]

/-- C7 (amended), witness: the specification's own Samsung 970 EVO
scenario, with exactly equal model strings. -/
theorem C7_amended_witness :
    get_disk_info
        [[{ model := "Samsung 970 EVO", type := "SSD", size := "465.76 GB",
            free_space := NA }],
         [{ model := "Samsung 970 EVO", type := NA, size := "465.76 GB",
            free_space := "120.50 GB" }]]
      = [{ model := "Samsung 970 EVO", type := "SSD", size := "465.76 GB",
           free_space := "120.50 GB" }] :=
  (C7_amended _ _ { model := "x" } { model := "x" }).1 rfl rfl (by decide) rfl

/- ## Claim C10 -/

/-- C10: in the WMIC disk probe, the free space summed over all local
logical-disk rows is assigned to the FIRST physical disk only; every other
disk of that probe keeps the sentinel (stage 1 sets every disk's
`free_space` to the sentinel, line 891, which the hypothesis records). -/
theorem C10_wmic_free_space (d : DiskRec) (ds : List DiskRec)
    (cells : List String) (hds : ∀ e ∈ ds, e.free_space = NA)
    (hpos : wmicFreeTotal cells > 0) :
    assignWmicFreeSpace (d :: ds) (wmicFreeTotal cells)
      = { d with free_space := fmt2GB (wmicFreeTotal cells) } :: ds ∧
    ∀ e ∈ (assignWmicFreeSpace (d :: ds) (wmicFreeTotal cells)).tail,
      e.free_space = NA := by
  have h1 : assignWmicFreeSpace (d :: ds) (wmicFreeTotal cells)
      = { d with free_space := fmt2GB (wmicFreeTotal cells) } :: ds := by
    simp [assignWmicFreeSpace, hpos]
  refine ⟨h1, ?_⟩
  rw [h1]
  exact hds

/-- C10, witness: one gigabyte of reported logical free space lands on the
first of two stage-1 disks; the second keeps the sentinel. -/
theorem C10_wmic_free_space_witness :
    assignWmicFreeSpace
        [wmicStage1Disk "WDC WD10EZEX" "HDD" "931.51 GB",
         wmicStage1Disk "ST1000DM010" "HDD" "931.51 GB"]
        (wmicFreeTotal ["1073741824"])
      = [{ model := "WDC WD10EZEX", type := "HDD", size := "931.51 GB",
           free_space := "1.00 GB" },
         wmicStage1Disk "ST1000DM010" "HDD" "931.51 GB"] :=
  (C10_wmic_free_space (wmicStage1Disk "WDC WD10EZEX" "HDD" "931.51 GB")
      [wmicStage1Disk "ST1000DM010" "HDD" "931.51 GB"] ["1073741824"]
      (by decide) (by decide)).1

/- ## Claim C9 -/

/-- A parsed column value as it reaches the record: the trimmed slice when
non-empty, the sentinel otherwise. -/
def toNAcol (v : String) : String := if v != "" then v else NA

/-- Column extraction when all three keywords are present, at offsets 0, 14
and 23: each value is the row slice between consecutive offsets (to the end
of the row for the last), trimmed. -/
lemma applyCols_header3 (L : List Char) :
    applyCols naMobo L
        [((0 : Int), MoboField.manufacturer), ((14 : Int), MoboField.model),
         ((23 : Int), MoboField.serial_number)]
      = fun f => match f with
        | MoboField.manufacturer => toNAcol (pyStrip (String.mk (L.take 14)))
        | MoboField.model => toNAcol (pyStrip (String.mk ((L.drop 14).take 9)))
        | MoboField.serial_number => toNAcol (pyStrip (String.mk (L.drop 23))) := by
  have htake : (L.drop 23).take (((L.length : Int) - 23).toNat) = L.drop 23 := by
    have h1 : ((L.length : Int) - 23).toNat = L.length - 23 := by omega
    rw [h1, ← List.length_drop, List.take_length]
  funext f
  simp only [applyCols]
  norm_num
  simp only [show Int.toNat 23 = 23 from rfl, show Int.toNat 14 = 14 from rfl,
    show Int.toNat 9 = 9 from rfl, htake]
  cases f <;> split_ifs <;> simp_all [setF, toNAcol, naMobo, naRec]

/-- Column extraction when the serial-number keyword is absent (offset -1,
sorted first and skipped): the remaining two columns are sliced as before
and the serial number stays unresolved. -/
lemma applyCols_header2 (L : List Char) :
    applyCols naMobo L
        [((-1 : Int), MoboField.serial_number),
         ((0 : Int), MoboField.manufacturer), ((14 : Int), MoboField.model)]
      = fun f => match f with
        | MoboField.manufacturer => toNAcol (pyStrip (String.mk (L.take 14)))
        | MoboField.model => toNAcol (pyStrip (String.mk (L.drop 14)))
        | MoboField.serial_number => NA := by
  have htake : (L.drop 14).take (((L.length : Int) - 14).toNat) = L.drop 14 := by
    have h1 : ((L.length : Int) - 14).toNat = L.length - 14 := by omega
    rw [h1, ← List.length_drop, List.take_length]
  funext f
  simp only [applyCols]
  norm_num
  simp only [show Int.toNat 14 = 14 from rfl, htake]
  cases f <;> split_ifs <;> simp_all [setF, toNAcol, naMobo, naRec]

/-- C9: on the header `"Manufacturer  Product  SerialNumber"` (keyword
offsets 0, 14, 23) an arbitrary data row yields the three trimmed slices
between consecutive offsets, each unresolved when its trimmed slice is
empty; omitting `SerialNumber` from the header leaves the serial number at
the sentinel without disturbing the other two columns. -/
theorem C9_tabular_columns (row : String) :
    (parse_mobo_row "Manufacturer  Product  SerialNumber" row
        MoboField.manufacturer
      = toNAcol (pyStrip (strSlice (pyStrip row) 0 14))) ∧
    (parse_mobo_row "Manufacturer  Product  SerialNumber" row MoboField.model
      = toNAcol (pyStrip (strSlice (pyStrip row) 14 23))) ∧
    (parse_mobo_row "Manufacturer  Product  SerialNumber" row
        MoboField.serial_number
      = toNAcol (pyStrip (String.mk ((pyStrip row).data.drop 23)))) ∧
    (parse_mobo_row "Manufacturer  Product" row MoboField.manufacturer
      = toNAcol (pyStrip (strSlice (pyStrip row) 0 14))) ∧
    (parse_mobo_row "Manufacturer  Product" row MoboField.model
      = toNAcol (pyStrip (String.mk ((pyStrip row).data.drop 14)))) ∧
    parse_mobo_row "Manufacturer  Product" row MoboField.serial_number
      = NA := by
  have h3 := applyCols_header3 (pyStrip row).data
  have h2 := applyCols_header2 (pyStrip row).data
  have e3 : parse_mobo_row "Manufacturer  Product  SerialNumber" row
      = applyCols naMobo (pyStrip row).data
          [((0 : Int), MoboField.manufacturer), ((14 : Int), MoboField.model),
           ((23 : Int), MoboField.serial_number)] := rfl
  have e2 : parse_mobo_row "Manufacturer  Product" row
      = applyCols naMobo (pyStrip row).data
          [((-1 : Int), MoboField.serial_number),
           ((0 : Int), MoboField.manufacturer),
           ((14 : Int), MoboField.model)] := rfl
  exact ⟨congrFun (e3.trans h3) MoboField.manufacturer,
         congrFun (e3.trans h3) MoboField.model,
         congrFun (e3.trans h3) MoboField.serial_number,
         congrFun (e2.trans h2) MoboField.manufacturer,
         congrFun (e2.trans h2) MoboField.model,
         congrFun (e2.trans h2) MoboField.serial_number⟩
